import Mathlib

/-!
Verification of the homebridge-solis-cloud-api plugin (src/index.js, platform
variant) against its natural-language specification.

The JavaScript source is shallowly embedded: JS numbers are modelled as the
type `JSNum` (a finite rational, positive/negative infinity, or NaN), the
loosely-typed JSON field values as `RawVal`, and the stateful accessory map as
an association list passed explicitly through each operation.  Vendor
telemetry values are decimal JSON literals, so finite values are modelled
exactly as rationals.
-/

set_option maxRecDepth 10000

namespace SolisCloud

/-- A JavaScript number: a finite value (modelled as an exact rational),
positive or negative infinity, or NaN. -/
inductive JSNum where
  | finite : ℚ → JSNum
  | posInf : JSNum
  | negInf : JSNum
  | nan : JSNum
deriving DecidableEq

/-- A loosely-typed JSON field value as it can appear in the vendor response:
a numeric literal, a string, a boolean, null, or an absent field (undefined). -/
inductive RawVal where
  | num : ℚ → RawVal
  | str : String → RawVal
  | boolV : Bool → RawVal
  | nullV : RawVal
  | undef : RawVal
deriving DecidableEq

/-- Numeric value of a decimal digit character. -/
def digitVal (c : Char) : ℕ := c.toNat - 48

/-- Value of a list of decimal digit characters. -/
def digitsToNat (cs : List Char) : ℕ := cs.foldl (fun a c => a * 10 + digitVal c) 0

/-- Whitespace characters stripped by the JS ToNumber coercion of a string. -/
def jsIsSpace (c : Char) : Bool := c == ' ' || c == '\t' || c == '\n' || c == '\r'

/-- Parse an optionally signed decimal exponent (the part after an `e`). -/
def parseSignedExp (cs : List Char) : Option ℤ :=
  match cs with
  | '+' :: ds => if ds ≠ [] ∧ ds.all Char.isDigit then some (digitsToNat ds) else none
  | '-' :: ds => if ds ≠ [] ∧ ds.all Char.isDigit then some (-(digitsToNat ds : ℤ)) else none
  | ds => if ds ≠ [] ∧ ds.all Char.isDigit then some (digitsToNat ds) else none

/-- Parse the mantissa `digits[.digits]` of a decimal literal, returning its
value and the unconsumed remainder. -/
def parseMantissa (cs : List Char) : Option (ℚ × List Char) :=
  let p := cs.span Char.isDigit
  match p.2 with
  | '.' :: rest2 =>
      let q := rest2.span Char.isDigit
      if p.1.isEmpty && q.1.isEmpty then none
      else some ((digitsToNat p.1 : ℚ) + (digitsToNat q.1 : ℚ) / (10 : ℚ) ^ q.1.length, q.2)
  | _ => if p.1.isEmpty then none else some ((digitsToNat p.1 : ℚ), p.2)

/-- Parse an unsigned decimal literal `digits[.digits][e[±]digits]`. -/
def parseUnsignedDec (cs : List Char) : Option ℚ :=
  match parseMantissa cs with
  | none => none
  | some m =>
    match m.2 with
    | [] => some m.1
    | 'e' :: ecs => (parseSignedExp ecs).map (fun e => m.1 * (10 : ℚ) ^ e)
    | 'E' :: ecs => (parseSignedExp ecs).map (fun e => m.1 * (10 : ℚ) ^ e)
    | _ => none

/-- JS `Number(string)` coercion: trim whitespace, empty string is `0`,
optional sign, `Infinity`, or a decimal literal; anything else is NaN.
(The hexadecimal/binary/octal literal forms, which never occur in the vendor
telemetry, are not modelled.) -/
def jsStrToNum (s : String) : JSNum :=
  let cs := ((s.data.dropWhile jsIsSpace).reverse.dropWhile jsIsSpace).reverse
  match cs with
  | [] => .finite 0
  | _ =>
    let sb : Bool × List Char :=
      match cs with
      | '+' :: r => (false, r)
      | '-' :: r => (true, r)
      | r => (false, r)
    if sb.2 = "Infinity".data then (if sb.1 then .negInf else .posInf)
    else
      match parseUnsignedDec sb.2 with
      | some q => .finite (if sb.1 then -q else q)
      | none => .nan

/-- JS `Number(v)` coercion of a raw JSON field value. -/
def jsNumber : RawVal → JSNum
  | .num q => .finite q
  | .str s => jsStrToNum s
  | .boolV b => .finite (if b then 1 else 0)
  | .nullV => .finite 0
  | .undef => .nan

/-- The `safe` helper from updateAllSensors (src/index.js lines 195-198):
`const val = Number(n); return isNaN(val) ? fallback : val`.  The source's
default fallback argument is `0`; here the fallback is always passed
explicitly. -/
def safe (n : RawVal) (fallback : ℚ) : JSNum :=
  let val := jsNumber n
  if val = .nan then .finite fallback else val

/-- Multiplication by the literal `1000` as applied to a JS number
(kW-to-W scaling in the data map). -/
def jsMul1000 : JSNum → JSNum
  | .finite q => .finite (q * 1000)
  | x => x

/-- JS `Math.abs` on a JS number. -/
def jsAbs : JSNum → JSNum
  | .finite q => .finite |q|
  | .negInf => .posInf
  | x => x

/-- JS `<` comparison on two JS numbers (false whenever either side is NaN). -/
def jsLt : JSNum → JSNum → Bool
  | .nan, _ => false
  | _, .nan => false
  | .negInf, .negInf => false
  | .negInf, _ => true
  | _, .negInf => false
  | .posInf, _ => false
  | .finite _, .posInf => true
  | .finite a, .finite b => decide (a < b)

/-- The JS comparison `v < c` between a raw field value and a numeric literal
(both sides coerced to number first). -/
def jsLtRaw (v : RawVal) (c : ℚ) : Bool := jsLt (jsNumber v) (.finite c)

/-- The JS comparison `v > c` between a raw field value and a numeric literal. -/
def jsGtRaw (v : RawVal) (c : ℚ) : Bool := jsLt (.finite c) (jsNumber v)

/-- First record of the vendor response (`response.data.records[0]`), with the
fields read by updateAllSensors. -/
structure SolisRecord where
  power : RawVal
  batteryPower : RawVal
  batteryPercent : RawVal
  psum : RawVal
  familyLoadPower : RawVal
  dayEnergy : RawVal
  monthEnergy : RawVal
  yearEnergy : RawVal
  allEnergy : RawVal
  gridPurchasedDayEnergy : RawVal
  gridSellDayEnergy : RawVal
  homeLoadTodayEnergy : RawVal
  dataTimestamp : RawVal
deriving DecidableEq

/-- A parsed vendor response: success flag, application code string, and the
`data?.records?` list (`none` models an absent `data` object or an absent
`records` field). -/
structure SolisResponse where
  success : Bool
  code : String
  records : Option (List SolisRecord)
deriving DecidableEq

/-- The validation test of updateAllSensors (src/index.js line 189):
`!response?.success || response.code !== '0' || !response.data?.records?.length`.
`true` means the cycle is rejected. -/
def rejectResponse (resp : SolisResponse) : Bool :=
  !resp.success || resp.code != "0" ||
    (match resp.records with
     | none => true
     | some rs => rs.isEmpty)

/-- First-match lookup in an association list keyed by strings (models reads
of a JS object literal or `Map`). -/
def alookup {α : Type} (k : String) : List (String × α) → Option α
  | [] => none
  | e :: rest => if e.1 = k then some e.2 else alookup k rest

/-- In-place update (or append when absent) in an association list (models
`Map.prototype.set` and JS object property assignment). -/
def aset {α : Type} (k : String) (v : α) : List (String × α) → List (String × α)
  | [] => [(k, v)]
  | e :: rest => if e.1 = k then (k, v) :: rest else e :: aset k v rest

/-- The `dataMap` object literal built by updateAllSensors (src/index.js
lines 201-215), keyed by metric idTag. -/
def dataMap (r : SolisRecord) : List (String × JSNum) :=
  [ ("pvPower", jsMul1000 (safe r.power 0)),
    ("batteryPower", jsMul1000 (safe r.batteryPower 0)),
    ("batteryPercent", safe r.batteryPercent 0),
    ("gridImport", if jsLtRaw r.psum 0 then jsMul1000 (jsAbs (safe r.psum 0)) else .finite 0),
    ("gridExport", if jsGtRaw r.psum 0 then jsMul1000 (safe r.psum 0) else .finite 0),
    ("houseLoad", jsMul1000 (safe r.familyLoadPower 0)),
    ("dayPvEnergy", safe r.dayEnergy 0),
    ("monthPvEnergy", safe r.monthEnergy 0),
    ("yearPvEnergy", safe r.yearEnergy 0),
    ("totalPvEnergy", safe r.allEnergy 0),
    ("dayGridPurchased", safe r.gridPurchasedDayEnergy 0),
    ("dayGridSold", safe r.gridSellDayEnergy 0),
    ("dayHouseLoadEnergy", safe r.homeLoadTodayEnergy 0) ]

/-- The grid-import derivation of src/index.js line 205
(`r.psum < 0 ? Math.abs(safe(r.psum)) * 1000 : 0`), specialised to a numeric
`psum` value `f`. -/
def gridImportOf (f : ℚ) : ℚ := if f < 0 then |f| * 1000 else 0

/-- The grid-export derivation of src/index.js line 206
(`r.psum > 0 ? safe(r.psum) * 1000 : 0`), specialised to a numeric `psum`
value `f`. -/
def gridExportOf (f : ℚ) : ℚ := if 0 < f then f * 1000 else 0

/-- The raw input of Scenario A: `{power:1.5, batteryPower:-0.2,
batteryPercent:42, psum:-0.4, familyLoadPower:0.3, dayEnergy:5.2, ...}`
(all remaining fields absent). -/
def scenarioARecord : SolisRecord :=
  { power := .num (3/2), batteryPower := .num (-(1/5)), batteryPercent := .num 42,
    psum := .num (-(2/5)), familyLoadPower := .num (3/10), dayEnergy := .num (26/5),
    monthEnergy := .undef, yearEnergy := .undef, allEnergy := .undef,
    gridPurchasedDayEnergy := .undef, gridSellDayEnergy := .undef,
    homeLoadTodayEnergy := .undef, dataTimestamp := .undef }

/-- The Scenario A response: success with code `'0'` and one record. -/
def scenarioAResponse : SolisResponse := ⟨true, "0", some [scenarioARecord]⟩

/-- A raw value is finite-numeric when its JS numeric coercion is a finite
number. -/
def finiteNumeric (n : RawVal) : Prop := ∃ q : ℚ, jsNumber n = .finite q

/-- One entry of the metric registry (src/index.js lines 48-64). -/
structure Metric where
  name : String
  idTag : String
  graph : Bool
deriving DecidableEq

/-- The metric registry `this.metrics` (src/index.js lines 48-64). -/
def solisMetrics : List Metric :=
  [ ⟨"PV Power Watts", "pvPower", true⟩,
    ⟨"Battery Power Watts", "batteryPower", true⟩,
    ⟨"Battery Percentage", "batteryPercent", true⟩,
    ⟨"Grid Import Watts", "gridImport", true⟩,
    ⟨"Grid Export Watts", "gridExport", true⟩,
    ⟨"House Load Watts", "houseLoad", true⟩,
    ⟨"PV Today Energy kWh", "dayPvEnergy", false⟩,
    ⟨"PV Month Energy kWh", "monthPvEnergy", false⟩,
    ⟨"PV Year Energy kWh", "yearPvEnergy", false⟩,
    ⟨"PV Total Energy kWh", "totalPvEnergy", false⟩,
    ⟨"Grid Purchased Today kWh", "dayGridPurchased", false⟩,
    ⟨"Grid Sold Today kWh", "dayGridSold", false⟩,
    ⟨"House Load Today kWh", "dayHouseLoadEnergy", false⟩ ]

/-- Models `this.api.hap.uuid.generate`: a pure, deterministic, injective
function of the seed string (hap generates a version-5 UUID from the seed);
modelled as the seed string itself. -/
def generateUUID (seed : String) : String := seed

/-- The accessory identifier computed during reconciliation
(src/index.js line 97). -/
def reconcileUUID (deviceId idTag : String) : String :=
  generateUUID ("solis-" ++ deviceId ++ "-" ++ idTag)

/-- The accessory identifier computed on each publish
(src/index.js line 238). -/
def publishUUID (deviceId idTag : String) : String :=
  generateUUID ("solis-" ++ deviceId ++ "-" ++ idTag)

/-- One HAP service attached to an accessory: its service type and optional
subtype (the metric idTag). -/
structure ServiceEntry where
  typ : String
  subtype : Option String
deriving DecidableEq

/-- The HAP LightSensor service type. -/
def lightSensorType : String := "LightSensor"

/-- The HAP AccessoryInformation service type. -/
def accessoryInformationType : String := "AccessoryInformation"

/-- A platform accessory: display name, attached services, the cached
CurrentAmbientLightLevel value, whether a FakeGato history service was
attached, the context.logging last-entry-time map and the pushed history
entries (time, lux). -/
structure Accessory where
  displayName : String
  services : List ServiceEntry
  luxValue : Option ℚ
  historyService : Bool
  logging : List (String × JSNum)
  history : List (JSNum × ℚ)
deriving DecidableEq

/-- `accessory.getServiceByUUIDAndSubType`: first service matching both type
and subtype exactly. -/
def getServiceExact (acc : Accessory) (typ sub : String) : Option ServiceEntry :=
  acc.services.find? (fun s => s.typ == typ && s.subtype == some sub)

/-- `accessory.getService(type)`: first service of the given type. -/
def getServiceFirst (acc : Accessory) (typ : String) : Option ServiceEntry :=
  acc.services.find? (fun s => s.typ == typ)

/-- `accessory.removeService(s)` where s is the first service of the given
type. -/
def removeFirstService (typ : String) : List ServiceEntry → List ServiceEntry
  | [] => []
  | s :: rest => if s.typ = typ then rest else s :: removeFirstService typ rest

/-- The getServiceBySubtype helper (src/index.js lines 281-297): exact
type-and-subtype match first, then any service of the type as a last
resort. -/
def getServiceBySubtype (acc : Accessory) (typ sub : String) : Option ServiceEntry :=
  match getServiceExact acc typ sub with
  | some s => some s
  | none => getServiceFirst acc typ

/-- A freshly created platform accessory for a metric (src/index.js lines
120-136): the host-provided AccessoryInformation service plus a LightSensor
service subtyped by the metric idTag, with an empty context.  (The
descriptive characteristics written onto AccessoryInformation are not
modelled; no claim concerns them.) -/
def freshAccessory (m : Metric) : Accessory :=
  { displayName := m.name,
    services := [⟨accessoryInformationType, none⟩, ⟨lightSensorType, some m.idTag⟩],
    luxValue := none, historyService := false, logging := [], history := [] }

/-- The FakeGato setup of ensureAccessory (src/index.js lines 162-171):
create the history service for graph metrics when absent. -/
def setupHistory (m : Metric) (acc : Accessory) : Accessory :=
  if m.graph && !acc.historyService then { acc with historyService := true } else acc

/-- The repair path of ensureAccessory for a restored accessory
(src/index.js lines 146-156): when the exact LightSensor service for the
metric idTag is missing, remove the first LightSensor service if any and
attach a fresh one with the right subtype. -/
def repairServices (m : Metric) (acc1 : Accessory) : Accessory :=
  if (getServiceExact acc1 lightSensorType m.idTag).isSome then acc1
  else
    let stripped :=
      match getServiceFirst acc1 lightSensorType with
      | some _ => { acc1 with services := removeFirstService lightSensorType acc1.services }
      | none => acc1
    { stripped with services := stripped.services ++ [⟨lightSensorType, some m.idTag⟩] }

/-- ensureAccessory (src/index.js lines 116-172): create the accessory when
absent, otherwise refresh its display name and repair the LightSensor
service when the exact subtype is missing; then attach FakeGato for graph
metrics.  Returns the updated accessory map and whether a new accessory was
registered. -/
def ensureAccessory (m : Metric) (uuid : String) (accs : List (String × Accessory)) :
    List (String × Accessory) × Bool :=
  match alookup uuid accs with
  | none =>
      (aset uuid (setupHistory m (freshAccessory m)) accs, true)
  | some acc0 =>
      (aset uuid (setupHistory m (repairServices m { acc0 with displayName := m.name })) accs,
        false)

/-- The per-metric loop of initialiseAccessories (src/index.js lines 96-100):
run ensureAccessory for each registry entry in order, collecting the
identifiers of newly registered accessories. -/
def ensureAll (d : String) : List Metric → List (String × Accessory) →
    List (String × Accessory) × List String
  | [], accs => (accs, [])
  | m :: ms, accs =>
      let p := ensureAccessory m (reconcileUUID d m.idTag) accs
      let q := ensureAll d ms p.1
      (q.1, (if p.2 then [reconcileUUID d m.idTag] else []) ++ q.2)

/-- The identifiers freshly computed from the current metric registry for a
device (the validUUIDs list of src/index.js lines 94-99). -/
def validUUIDs (d : String) : List String :=
  solisMetrics.map (fun m => reconcileUUID d m.idTag)

/-- Result of one reconciliation run: the live accessory map, the
identifiers registered during the run, and the identifiers unregistered by
the removal loop. -/
structure InitResult where
  accessories : List (String × Accessory)
  created : List String
  removed : List String
deriving DecidableEq

/-- initialiseAccessories (src/index.js lines 93-111): ensure every registry
metric, then unregister and drop every accessory whose identifier is not
among the freshly computed set. -/
def initialiseAccessories (d : String) (accs : List (String × Accessory)) : InitResult :=
  { accessories :=
      (ensureAll d solisMetrics accs).1.filter (fun kv => (validUUIDs d).contains kv.1),
    created := (ensureAll d solisMetrics accs).2,
    removed :=
      ((ensureAll d solisMetrics accs).1.map Prod.fst).filter
        (fun k => !(validUUIDs d).contains k) }

/-- The numeric fallback chain of updateLightSensor (src/index.js lines
246-247): a finite value is kept, any non-finite coercion falls back to
0.0001. -/
def updateNumeric : JSNum → ℚ
  | .finite q => q
  | _ => 1/10000

/-- The published value (src/index.js line 251):
`Math.min(Math.max(0.0001, numeric), 100000)`. -/
def safeValue (v : JSNum) : ℚ := min (max (1/10000) (updateNumeric v)) 100000

/-- `Math.round(tsMillis / 1000)` on a JS number (src/index.js line 256);
JS rounds half up via floor(x + 1/2). -/
def jsRoundMillis (t : JSNum) : JSNum :=
  match t with
  | .finite q => .finite ((⌊q / 1000 + 1/2⌋ : ℤ) : ℚ)
  | x => x

/-- `accessory.context.logging[metric.idTag] || 0` (src/index.js line 259):
an absent entry and the falsy numbers 0 and NaN all yield 0. -/
def jsOrZero : Option JSNum → JSNum
  | none => .finite 0
  | some v => if v = .finite 0 ∨ v = .nan then .finite 0 else v

/-- The FakeGato-relevant per-accessory state: the context.logging
last-entry-time map and the pushed history entries. -/
structure LogState where
  logging : List (String × JSNum)
  history : List (JSNum × ℚ)
deriving DecidableEq

/-- The FakeGato block of updateLightSensor (src/index.js lines 255-274):
for a graph metric with a history service, append an entry only when the
entry time is strictly newer than the last logged time for the metric, and
record the new last time. -/
def fakegatoStep (m : Metric) (hasHistory : Bool) (numeric : ℚ) (tsMillis : JSNum)
    (st : LogState) : LogState :=
  if m.graph && hasHistory then
    let entryTime := jsRoundMillis tsMillis
    let lastTime := jsOrZero (alookup m.idTag st.logging)
    if jsLt lastTime entryTime then
      ⟨aset m.idTag entryTime st.logging, st.history ++ [(entryTime, numeric)]⟩
    else st
  else st

/-- The per-accessory effect of updateLightSensor (src/index.js lines
246-274): store the clamped value into the LightSensor characteristic and
run the FakeGato block on the context.logging map and history.  (safeUpdate
only notifies when the value changed; the resulting cached value is the
same either way and is modelled as a plain store.) -/
def publishApply (m : Metric) (value tsMillis : JSNum) (acc : Accessory) : Accessory :=
  { acc with
    luxValue := some (safeValue value),
    logging := (fakegatoStep m acc.historyService (updateNumeric value) tsMillis
      ⟨acc.logging, acc.history⟩).logging,
    history := (fakegatoStep m acc.historyService (updateNumeric value) tsMillis
      ⟨acc.logging, acc.history⟩).history }

/-- updateLightSensor (src/index.js lines 237-275): look the accessory up by
its stable identifier, find its LightSensor service, then store the clamped
value and run the FakeGato block. -/
def updateLightSensor (d : String) (m : Metric) (value : JSNum) (tsMillis : JSNum)
    (accs : List (String × Accessory)) : List (String × Accessory) :=
  match alookup (publishUUID d m.idTag) accs with
  | none => accs
  | some acc =>
    match getServiceBySubtype acc lightSensorType m.idTag with
    | none => accs
    | some _ => aset (publishUUID d m.idTag) (publishApply m value tsMillis acc) accs

/-- One poll cycle of updateAllSensors (src/index.js lines 185-232) after the
response JSON arrived: reject invalid responses without touching any
accessory, otherwise build the data map from the first record and push every
registry metric.  `now` models `Date.now()`, the fallback for an invalid
vendor timestamp. -/
def pollCycle (d : String) (now : ℚ) (resp : SolisResponse)
    (accs : List (String × Accessory)) : List (String × Accessory) :=
  if rejectResponse resp then accs
  else
    match resp.records with
    | some (r :: _) =>
      let dm := dataMap r
      let ts := safe r.dataTimestamp now
      solisMetrics.foldl
        (fun a m =>
          match alookup m.idTag dm with
          | some v => updateLightSensor d m v ts a
          | none => a) accs
    | _ => accs

/-- Modelled from the spec wording of claim C4, for comparison with the
code: the raw snapshot value clamped into the inclusive range [0, 100]. -/
def specPercentClamp (q : ℚ) : ℚ := min (max 0 q) 100

/-- An accessory is fully reconciled for a metric: up-to-date display name,
exact LightSensor service for the metric idTag, and a history service when
the metric is graphed. -/
def goodAcc (m : Metric) (acc : Accessory) : Prop :=
  acc.displayName = m.name ∧
  (getServiceExact acc lightSensorType m.idTag).isSome = true ∧
  (m.graph = true → acc.historyService = true)

/-- Invariant of the FakeGato state for one metric: the logged entry times
are strictly increasing, and every logged time is at most the recorded last
time for the metric. -/
def historyInv (tag : String) (st : LogState) : Prop :=
  List.Pairwise (fun a b => jsLt a b = true) (st.history.map Prod.fst) ∧
  ∀ t ∈ st.history.map Prod.fst,
    jsLt t (jsOrZero (alookup tag st.logging)) = true ∨
      t = jsOrZero (alookup tag st.logging)

/-- The pvPower registry entry, used in concrete instantiations. -/
def pvMetric : Metric := ⟨"PV Power Watts", "pvPower", true⟩

/-- The batteryPercent registry entry (the percentage-kind metric). -/
def batteryMetric : Metric := ⟨"Battery Percentage", "batteryPercent", true⟩

/-- A restored pvPower accessory used in concrete instantiations. -/
def samplePvAcc : Accessory :=
  { displayName := "PV Power Watts",
    services := [⟨accessoryInformationType, none⟩, ⟨lightSensorType, some "pvPower"⟩],
    luxValue := none, historyService := false, logging := [], history := [] }

/-- A restored batteryPercent accessory used in concrete instantiations. -/
def sampleBatteryAcc : Accessory :=
  { displayName := "Battery Percentage",
    services := [⟨accessoryInformationType, none⟩, ⟨lightSensorType, some "batteryPercent"⟩],
    luxValue := none, historyService := false, logging := [], history := [] }

end SolisCloud

namespace SolisCloud

/-- String concatenation is left-cancellative. -/
theorem string_append_left_cancel {s t u : String} (h : s ++ t = s ++ u) : t = u := by
  have h2 : (s ++ t).data = (s ++ u).data := congrArg String.data h
  rw [String.data_append, String.data_append] at h2
  exact congrArg String.mk (List.append_cancel_left h2)

/-- For a fixed device identifier, distinct metric identifiers yield distinct
accessory identifiers. -/
theorem reconcileUUID_tag_inj {d t1 t2 : String}
    (h : reconcileUUID d t1 = reconcileUUID d t2) : t1 = t2 := by
  unfold reconcileUUID generateUUID at h
  exact string_append_left_cancel h

/-- The data map entries for the grid split agree with the specialised
numeric derivations when `psum` is a numeric literal. -/
theorem dataMap_grid_eq (r : SolisRecord) (f : ℚ) (h : r.psum = .num f) :
    alookup "gridImport" (dataMap r) = some (.finite (gridImportOf f)) ∧
    alookup "gridExport" (dataMap r) = some (.finite (gridExportOf f)) := by
  constructor <;>
    simp [dataMap, alookup, h, jsLtRaw, jsGtRaw, jsNumber, jsLt, safe, jsAbs, jsMul1000,
      gridImportOf, gridExportOf] <;>
    split <;> simp_all

theorem alookup_aset_self {α : Type} (k : String) (v : α) (l : List (String × α)) :
    alookup k (aset k v l) = some v := by
  induction l with
  | nil => simp [aset, alookup]
  | cons e rest ih =>
    by_cases h : e.1 = k <;> simp [aset, alookup, h, ih]

theorem alookup_aset_ne {α : Type} {k k' : String} (h : k' ≠ k) (v : α)
    (l : List (String × α)) : alookup k' (aset k v l) = alookup k' l := by
  have hk : k ≠ k' := Ne.symm h
  induction l with
  | nil => simp [aset, alookup, hk]
  | cons e rest ih =>
    by_cases he : e.1 = k
    · subst he
      rw [aset, if_pos rfl, alookup, alookup, if_neg (fun hx => h hx.symm),
        if_neg (fun hx => h hx.symm)]
    · rw [aset, if_neg he, alookup, alookup, ih]

theorem aset_of_lookup_eq {α : Type} {k : String} {v : α} {l : List (String × α)}
    (h : alookup k l = some v) : aset k v l = l := by
  induction l with
  | nil => simp [alookup] at h
  | cons e rest ih =>
    by_cases he : e.1 = k
    · rw [alookup, if_pos he] at h
      injection h with hvv
      rw [aset, if_pos he, ← hvv, ← he]
    · rw [alookup, if_neg he] at h
      rw [aset, if_neg he, ih h]

theorem mem_keys_aset {α : Type} (a k : String) (v : α) (l : List (String × α)) :
    a ∈ (aset k v l).map Prod.fst ↔ a ∈ l.map Prod.fst ∨ a = k := by
  induction l with
  | nil => simp [aset]
  | cons e rest ih =>
    by_cases he : e.1 = k <;> simp [aset, he, ih] <;> tauto

theorem alookup_mem_keys {α : Type} {k : String} {v : α} {l : List (String × α)}
    (h : alookup k l = some v) : k ∈ l.map Prod.fst := by
  induction l with
  | nil => simp [alookup] at h
  | cons e rest ih =>
    by_cases he : e.1 = k
    · simp [he.symm]
    · rw [alookup, if_neg he] at h
      simp [ih h]

theorem alookup_filter_keep {α : Type} (p : String → Bool) {k : String}
    (h : p k = true) (l : List (String × α)) :
    alookup k (l.filter fun kv => p kv.1) = alookup k l := by
  induction l with
  | nil => simp
  | cons e rest ih =>
    by_cases he : e.1 = k
    · subst he
      simp [alookup, h, ih]
    · by_cases hp : p e.1 <;> simp [alookup, he, hp, ih]

theorem alookup_filter_drop {α : Type} (p : String → Bool) {k : String}
    (h : p k = false) (l : List (String × α)) :
    alookup k (l.filter fun kv => p kv.1) = none := by
  induction l with
  | nil => simp [alookup]
  | cons e rest ih =>
    by_cases he : e.1 = k
    · subst he
      simp [alookup, h, ih]
    · by_cases hp : p e.1 <;> simp [alookup, he, hp, ih]

theorem contains_iff {l : List String} {a : String} : l.contains a = true ↔ a ∈ l := by
  simp [List.contains]

theorem contains_false_iff {l : List String} {a : String} : l.contains a = false ↔ a ∉ l := by
  rw [← contains_iff]
  cases h : l.contains a <;> simp

theorem setupHistory_services (m : Metric) (acc : Accessory) :
    (setupHistory m acc).services = acc.services := by
  unfold setupHistory
  split <;> rfl

theorem setupHistory_displayName (m : Metric) (acc : Accessory) :
    (setupHistory m acc).displayName = acc.displayName := by
  unfold setupHistory
  split <;> rfl

theorem setupHistory_graph (m : Metric) (acc : Accessory) (h : m.graph = true) :
    (setupHistory m acc).historyService = true := by
  unfold setupHistory
  rcases hb : acc.historyService <;> simp [h, hb]

theorem getServiceExact_services_eq {acc acc' : Accessory} (t s : String)
    (h : acc.services = acc'.services) :
    getServiceExact acc t s = getServiceExact acc' t s := by
  unfold getServiceExact
  rw [h]

theorem find?_append_right_isSome {α : Type} (p : α → Bool) (l1 l2 : List α)
    (h : (l2.find? p).isSome = true) : ((l1 ++ l2).find? p).isSome = true := by
  rw [List.find?_isSome] at h ⊢
  obtain ⟨x, hx, hp⟩ := h
  exact ⟨x, List.mem_append_right _ hx, hp⟩

theorem repair_noop (m : Metric) (acc1 : Accessory)
    (h : (getServiceExact acc1 lightSensorType m.idTag).isSome = true) :
    repairServices m acc1 = acc1 := by
  unfold repairServices
  rw [if_pos h]

theorem repair_displayName (m : Metric) (acc1 : Accessory) :
    (repairServices m acc1).displayName = acc1.displayName := by
  unfold repairServices
  split
  · rfl
  · cases getServiceFirst acc1 lightSensorType <;> rfl

theorem repair_historyService (m : Metric) (acc1 : Accessory) :
    (repairServices m acc1).historyService = acc1.historyService := by
  unfold repairServices
  split
  · rfl
  · cases getServiceFirst acc1 lightSensorType <;> rfl

theorem repair_service_present (m : Metric) (acc1 : Accessory) :
    (getServiceExact (repairServices m acc1) lightSensorType m.idTag).isSome = true := by
  unfold repairServices
  split
  · assumption
  · cases getServiceFirst acc1 lightSensorType <;>
    · unfold getServiceExact
      refine find?_append_right_isSome _ _ _ ?_
      simp [List.find?]

theorem ensure_noop (m : Metric) (u : String) (accs : List (String × Accessory))
    (acc : Accessory) (hl : alookup u accs = some acc) (hg : goodAcc m acc) :
    ensureAccessory m u accs = (accs, false) := by
  obtain ⟨hname, hsvc, hhist⟩ := hg
  have hacc1 : { acc with displayName := m.name } = acc := by
    cases acc
    simp_all
  have hsh : setupHistory m acc = acc := by
    unfold setupHistory
    rcases hgr : m.graph with _ | _
    · simp [hgr]
    · simp [hgr, hhist hgr]
  unfold ensureAccessory
  rw [hl]
  show (aset u (setupHistory m (repairServices m { acc with displayName := m.name })) accs,
      false) = (accs, false)
  rw [hacc1, repair_noop m acc hsvc, hsh, aset_of_lookup_eq hl]

theorem ensure_good (m : Metric) (u : String) (accs : List (String × Accessory)) :
    ∃ acc, alookup u (ensureAccessory m u accs).1 = some acc ∧ goodAcc m acc := by
  unfold ensureAccessory
  cases hl : alookup u accs with
  | none =>
    refine ⟨setupHistory m (freshAccessory m), by simp [alookup_aset_self], ?_, ?_, ?_⟩
    · rw [setupHistory_displayName]
      rfl
    · rw [getServiceExact_services_eq _ _ (setupHistory_services m _)]
      simp [getServiceExact, freshAccessory, lightSensorType, accessoryInformationType,
        List.find?]
    · intro hg
      exact setupHistory_graph m _ hg
  | some acc0 =>
    refine ⟨setupHistory m (repairServices m { acc0 with displayName := m.name }),
      by simp [alookup_aset_self], ?_, ?_, ?_⟩
    · rw [setupHistory_displayName, repair_displayName]
    · rw [getServiceExact_services_eq _ _ (setupHistory_services m _)]
      exact repair_service_present m _
    · intro hg
      exact setupHistory_graph m _ hg

theorem ensure_frame (m : Metric) {u u' : String} (h : u' ≠ u)
    (accs : List (String × Accessory)) :
    alookup u' (ensureAccessory m u accs).1 = alookup u' accs := by
  unfold ensureAccessory
  cases hl : alookup u accs <;> simp [alookup_aset_ne h]

theorem ensure_keys (m : Metric) (u a : String) (accs : List (String × Accessory)) :
    a ∈ (ensureAccessory m u accs).1.map Prod.fst ↔ a ∈ accs.map Prod.fst ∨ a = u := by
  unfold ensureAccessory
  cases hl : alookup u accs
  · exact mem_keys_aset a u _ accs
  · exact mem_keys_aset a u _ accs

theorem ensureAll_frame (d : String) (ms : List Metric) {u : String}
    (h : ∀ m ∈ ms, u ≠ reconcileUUID d m.idTag) (accs : List (String × Accessory)) :
    alookup u (ensureAll d ms accs).1 = alookup u accs := by
  induction ms generalizing accs with
  | nil => rfl
  | cons m0 ms ih =>
    show alookup u (ensureAll d ms (ensureAccessory m0 (reconcileUUID d m0.idTag) accs).1).1 = _
    rw [ih (fun m' hm' => h m' (List.mem_cons_of_mem _ hm')),
      ensure_frame m0 (h m0 (List.mem_cons_self _ _))]

theorem ensureAll_good (d : String) (ms : List Metric)
    (hp : List.Pairwise (fun m1 m2 => reconcileUUID d m1.idTag ≠ reconcileUUID d m2.idTag) ms)
    (accs : List (String × Accessory)) :
    ∀ m ∈ ms, ∃ acc,
      alookup (reconcileUUID d m.idTag) (ensureAll d ms accs).1 = some acc ∧ goodAcc m acc := by
  induction ms generalizing accs with
  | nil => intro m hm; cases hm
  | cons m0 ms ih =>
    intro m hm
    rcases List.mem_cons.1 hm with rfl | hm'
    · obtain ⟨acc, ha, hg⟩ := ensure_good m (reconcileUUID d m.idTag) accs
      refine ⟨acc, ?_, hg⟩
      show alookup _ (ensureAll d ms (ensureAccessory m (reconcileUUID d m.idTag) accs).1).1 = _
      rw [ensureAll_frame d ms ((List.pairwise_cons.1 hp).1) _, ha]
    · exact ih (List.pairwise_cons.1 hp).2 _ m hm'

theorem ensureAll_noop (d : String) (ms : List Metric) (accs : List (String × Accessory))
    (h : ∀ m ∈ ms, ∃ acc,
      alookup (reconcileUUID d m.idTag) accs = some acc ∧ goodAcc m acc) :
    ensureAll d ms accs = (accs, []) := by
  induction ms with
  | nil => rfl
  | cons m0 ms ih =>
    obtain ⟨acc, ha, hg⟩ := h m0 (List.mem_cons_self _ _)
    have he := ensure_noop m0 _ accs acc ha hg
    show (let p := ensureAccessory m0 (reconcileUUID d m0.idTag) accs
          let q := ensureAll d ms p.1
          (q.1, (if p.2 then [reconcileUUID d m0.idTag] else []) ++ q.2)) = (accs, [])
    rw [he]
    simp [ih (fun m hm => h m (List.mem_cons_of_mem _ hm))]

theorem ensureAll_keys (d : String) (ms : List Metric) (a : String)
    (accs : List (String × Accessory)) :
    a ∈ (ensureAll d ms accs).1.map Prod.fst ↔
      a ∈ accs.map Prod.fst ∨ ∃ m ∈ ms, a = reconcileUUID d m.idTag := by
  induction ms generalizing accs with
  | nil => simp [ensureAll]
  | cons m0 ms ih =>
    show a ∈ (ensureAll d ms (ensureAccessory m0 (reconcileUUID d m0.idTag) accs).1).1.map
        Prod.fst ↔ _
    rw [ih, ensure_keys]
    simp only [List.mem_cons]
    constructor
    · rintro ((hm | rfl) | ⟨m, hm, rfl⟩)
      · exact Or.inl hm
      · exact Or.inr ⟨m0, Or.inl rfl, rfl⟩
      · exact Or.inr ⟨m, Or.inr hm, rfl⟩
    · rintro (hm | ⟨m, (rfl | hm), rfl⟩)
      · exact Or.inl (Or.inl hm)
      · exact Or.inl (Or.inr rfl)
      · exact Or.inr ⟨m, hm, rfl⟩

theorem solisMetrics_uuid_pairwise (d : String) :
    List.Pairwise (fun m1 m2 => reconcileUUID d m1.idTag ≠ reconcileUUID d m2.idTag)
      solisMetrics := by
  have htags : List.Pairwise (fun m1 m2 : Metric => m1.idTag ≠ m2.idTag) solisMetrics := by
    decide
  exact htags.imp (fun h hu => h (reconcileUUID_tag_inj hu))

theorem init_accessories_eq (d : String) (accs : List (String × Accessory)) :
    (initialiseAccessories d accs).accessories =
      (ensureAll d solisMetrics accs).1.filter (fun kv => (validUUIDs d).contains kv.1) := by
  unfold initialiseAccessories
  with_reducible rfl

theorem init_created_eq (d : String) (accs : List (String × Accessory)) :
    (initialiseAccessories d accs).created = (ensureAll d solisMetrics accs).2 := by
  unfold initialiseAccessories
  with_reducible rfl

theorem init_removed_eq (d : String) (accs : List (String × Accessory)) :
    (initialiseAccessories d accs).removed =
      ((ensureAll d solisMetrics accs).1.map Prod.fst).filter
        (fun k => !(validUUIDs d).contains k) := by
  unfold initialiseAccessories
  with_reducible rfl

theorem init_good (d : String) (accs : List (String × Accessory)) :
    ∀ m ∈ solisMetrics, ∃ acc,
      alookup (reconcileUUID d m.idTag) (initialiseAccessories d accs).accessories = some acc ∧
        goodAcc m acc := by
  intro m hm
  obtain ⟨acc, ha, hg⟩ := ensureAll_good d solisMetrics (solisMetrics_uuid_pairwise d) accs m hm
  refine ⟨acc, ?_, hg⟩
  have hc : (validUUIDs d).contains (reconcileUUID d m.idTag) = true :=
    contains_iff.2 (List.mem_map.2 ⟨m, hm, rfl⟩)
  rw [init_accessories_eq, alookup_filter_keep _ hc, ha]

theorem init_keys_valid (d : String) (accs : List (String × Accessory)) :
    ∀ kv ∈ (initialiseAccessories d accs).accessories,
      (validUUIDs d).contains kv.1 = true := by
  intro kv hkv
  rw [init_accessories_eq] at hkv
  exact (List.mem_filter.1 hkv).2

theorem jsLt_trans {a b c : JSNum} (h1 : jsLt a b = true) (h2 : jsLt b c = true) :
    jsLt a c = true := by
  cases a <;> cases b <;> cases c <;> simp_all [jsLt] <;> linarith

theorem jsLt_right_ne_nan {a b : JSNum} (h : jsLt a b = true) : b ≠ .nan := by
  intro hb
  subst hb
  cases a <;> simp [jsLt] at h

theorem jsOrZero_some {v : JSNum} (h : v ≠ .nan) : jsOrZero (some v) = v := by
  by_cases hv : v = .finite 0
  · simp [jsOrZero, hv]
  · simp [jsOrZero, hv, h]

theorem fakegatoStep_inv (m : Metric) (hs : Bool) (n : ℚ) (ts : JSNum) (st : LogState)
    (h : historyInv m.idTag st) : historyInv m.idTag (fakegatoStep m hs n ts st) := by
  unfold fakegatoStep
  by_cases hg : (m.graph && hs) = true
  · rw [if_pos hg]
    by_cases hcmp :
        jsLt (jsOrZero (alookup m.idTag st.logging)) (jsRoundMillis ts) = true
    · rw [if_pos hcmp]
      obtain ⟨hpw, hub⟩ := h
      have hetn : jsRoundMillis ts ≠ .nan := jsLt_right_ne_nan hcmp
      constructor
      · show List.Pairwise _ ((st.history ++ [(jsRoundMillis ts, n)]).map Prod.fst)
        rw [List.map_append, List.pairwise_append]
        refine ⟨hpw, List.pairwise_singleton _ _, ?_⟩
        intro x hx y hy
        simp only [List.map_cons, List.map_nil, List.mem_singleton] at hy
        subst hy
        rcases hub x hx with hlt' | heq
        · exact jsLt_trans hlt' hcmp
        · rw [heq]
          exact hcmp
      · intro t ht
        show jsLt t (jsOrZero (alookup m.idTag (aset m.idTag (jsRoundMillis ts)
            st.logging))) = true ∨
          t = jsOrZero (alookup m.idTag (aset m.idTag (jsRoundMillis ts) st.logging))
        rw [alookup_aset_self, jsOrZero_some hetn]
        rw [show (LogState.mk (aset m.idTag (jsRoundMillis ts) st.logging)
            (st.history ++ [(jsRoundMillis ts, n)])).history =
            st.history ++ [(jsRoundMillis ts, n)] from rfl, List.map_append] at ht
        rcases List.mem_append.1 ht with hx | hx
        · rcases hub t hx with hlt' | heq
          · exact Or.inl (jsLt_trans hlt' hcmp)
          · rw [heq]
            exact Or.inl hcmp
        · simp only [List.map_cons, List.map_nil, List.mem_singleton] at hx
          exact Or.inr hx
    · rw [if_neg hcmp]
      exact h
  · rw [if_neg hg]
    exact h

theorem fakegatoRun_inv (m : Metric) (hs : Bool) (polls : List (ℚ × JSNum)) (st : LogState)
    (h : historyInv m.idTag st) :
    historyInv m.idTag (polls.foldl (fun s p => fakegatoStep m hs p.1 p.2 s) st) := by
  induction polls generalizing st with
  | nil => exact h
  | cons p ps ih => exact ih _ (fakegatoStep_inv m hs p.1 p.2 st h)

theorem updateLightSensor_store (d : String) (m : Metric) (value ts : JSNum)
    (accs : List (String × Accessory)) (acc : Accessory)
    (hl : alookup (publishUUID d m.idTag) accs = some acc)
    (hsvc : (getServiceBySubtype acc lightSensorType m.idTag).isSome = true) :
    ∃ acc2, alookup (publishUUID d m.idTag) (updateLightSensor d m value ts accs) = some acc2 ∧
      acc2.luxValue = some (safeValue value) := by
  obtain ⟨s, hs⟩ := Option.isSome_iff_exists.1 hsvc
  unfold updateLightSensor
  rw [hl]
  show ∃ acc2, alookup (publishUUID d m.idTag)
      (match getServiceBySubtype acc lightSensorType m.idTag with
        | none => accs
        | some _ => aset (publishUUID d m.idTag) (publishApply m value ts acc) accs) =
      some acc2 ∧ acc2.luxValue = some (safeValue value)
  rw [hs]
  exact ⟨_, alookup_aset_self _ _ _, rfl⟩

end SolisCloud

namespace SolisCloud

end SolisCloud

namespace SolisCloud

/-- Claim C1 as written is false on the code: the derived pair is scaled by
1000 (kW to W), so at the combined grid flow f = -2/5 the difference
gridImport - gridExport is 400, not -f = 2/5. -/
theorem c1_counterexample :
    ¬ (((-(2/5) : ℚ) ≠ 0 →
          (0 < gridImportOf (-(2/5)) ∧ gridExportOf (-(2/5)) = 0) ∨
          (gridImportOf (-(2/5)) = 0 ∧ 0 < gridExportOf (-(2/5)))) ∧
        gridImportOf (-(2/5)) - gridExportOf (-(2/5)) = -(-(2/5))) := by
  intro h
  have h2 := h.2
  rw [gridImportOf, gridExportOf] at h2
  rw [if_pos (by norm_num), if_neg (by norm_num)] at h2
  rw [abs_of_neg (by norm_num)] at h2
  norm_num at h2

/-- Claim C1 (amended): for every combined grid flow value f, exactly one of
gridImport(f) > 0 or gridExport(f) > 0 holds unless f = 0, in which case both
are 0; and gridImport(f) - gridExport(f) = -(1000 * f), the negated flow
scaled by the kW-to-W factor 1000. -/
theorem c1_grid_flow_split (f : ℚ) :
    (f = 0 → gridImportOf f = 0 ∧ gridExportOf f = 0) ∧
    (f ≠ 0 →
      (0 < gridImportOf f ∧ gridExportOf f = 0) ∨
      (gridImportOf f = 0 ∧ 0 < gridExportOf f)) ∧
    gridImportOf f - gridExportOf f = -(1000 * f) := by
  unfold gridImportOf gridExportOf
  rcases lt_trichotomy f 0 with h | h | h
  · refine ⟨fun h0 => absurd h0 (ne_of_lt h), fun _ => Or.inl ?_, ?_⟩
    · rw [if_pos h, if_neg (not_lt.2 h.le), abs_of_neg h]
      exact ⟨by nlinarith, rfl⟩
    · rw [if_pos h, if_neg (not_lt.2 h.le), abs_of_neg h]; ring
  · subst h; norm_num
  · refine ⟨fun h0 => absurd h0 (ne_of_gt h), fun _ => Or.inr ?_, ?_⟩
    · rw [if_neg (not_lt.2 h.le), if_pos h]
      exact ⟨rfl, by nlinarith⟩
    · rw [if_neg (not_lt.2 h.le), if_pos h]; ring

/-- Witness for C1: at f = -1 the flow is imported only, and at f = 0 both
derived values vanish. -/
theorem c1_witness :
    ((0 < gridImportOf (-1) ∧ gridExportOf (-1) = 0) ∨
      (gridImportOf (-1) = 0 ∧ 0 < gridExportOf (-1))) ∧
    (gridImportOf 0 = 0 ∧ gridExportOf 0 = 0) ∧
    gridImportOf (-1) - gridExportOf (-1) = -(1000 * (-1)) :=
  ⟨(c1_grid_flow_split (-1)).2.1 (by norm_num), (c1_grid_flow_split 0).1 rfl,
    (c1_grid_flow_split (-1)).2.2⟩

/-- Claim C2 as written is false on the code: the snapshot scales power fields
by 1000, so pvPower is 1500 (not 1.5) and gridImport is 400 (not 0.4) for the
Scenario A record. -/
theorem c2_counterexample :
    ¬ (alookup "pvPower" (dataMap scenarioARecord) = some (.finite (3/2)) ∧
        alookup "gridImport" (dataMap scenarioARecord) = some (.finite (2/5)) ∧
        alookup "gridExport" (dataMap scenarioARecord) = some (.finite 0) ∧
        alookup "batteryPercent" (dataMap scenarioARecord) = some (.finite 42)) := by
  intro h
  have h1 := h.1
  simp [dataMap, alookup, safe, jsNumber, jsMul1000, scenarioARecord] at h1

/-- Claim C2 (amended): for the Scenario A response (success, code '0', one
record with power 1.5, psum -0.4, batteryPercent 42), the response passes
validation and the snapshot has pvPower = 1500, gridImport = 400,
gridExport = 0 (powers in W after the 1000 scaling) and batteryPercent = 42. -/
theorem c2_scenarioA :
    rejectResponse scenarioAResponse = false ∧
    alookup "pvPower" (dataMap scenarioARecord) = some (.finite 1500) ∧
    alookup "gridImport" (dataMap scenarioARecord) = some (.finite 400) ∧
    alookup "gridExport" (dataMap scenarioARecord) = some (.finite 0) ∧
    alookup "batteryPercent" (dataMap scenarioARecord) = some (.finite 42) := by
  refine ⟨by decide, ?_, ?_, ?_, ?_⟩
  · simp [dataMap, alookup, safe, jsNumber, jsMul1000, scenarioARecord]
    norm_num
  · simp [dataMap, alookup, safe, jsNumber, jsMul1000, jsLtRaw, jsLt, jsAbs, scenarioARecord]
    rw [abs_of_pos] <;> norm_num
  · simp [dataMap, alookup, safe, jsNumber, jsMul1000, jsGtRaw, jsLt, scenarioARecord]
    norm_num
  · simp [dataMap, alookup, safe, jsNumber, scenarioARecord]

/-- Claim C6 as written is false on the code: safe only substitutes the
fallback when the coercion is NaN, so the non-finite input string "Infinity"
is passed through as Infinity rather than replaced by the fallback. -/
theorem c6_counterexample :
    jsNumber (.str "Infinity") = .posInf ∧
    safe (.str "Infinity") 0 ≠ .finite 0 ∧
    ¬ finiteNumeric (.str "Infinity") := by
  refine ⟨by decide, by decide, ?_⟩
  rintro ⟨q, hq⟩
  rw [(by decide : jsNumber (.str "Infinity") = .posInf)] at hq
  exact JSNum.noConfusion hq

/-- Claim C6 (amended): safe(n, fallback) returns the JS numeric coercion of
n whenever that coercion is not NaN (including infinite values), and returns
the fallback exactly when the coercion is NaN. -/
theorem c6_safe_coercion (n : RawVal) (fb : ℚ) :
    (jsNumber n ≠ .nan → safe n fb = jsNumber n) ∧
    (jsNumber n = .nan → safe n fb = .finite fb) := by
  unfold safe
  constructor <;> intro h <;> simp [h]

/-- Witness for C6: the non-numeric string "abc" falls back to 0 and the
numeric literal 3/2 is passed through. -/
theorem c6_witness :
    safe (.str "abc") 0 = .finite 0 ∧ safe (.num (3/2)) 0 = .finite (3/2) := by
  refine ⟨(c6_safe_coercion (.str "abc") 0).2 (by decide), ?_⟩
  have h := (c6_safe_coercion (.num (3/2)) 0).1 (by simp [jsNumber])
  simpa [jsNumber] using h

/-- Claim C3: for every registry metric, publishing a raw 0 stores a value
strictly greater than 0 and at most the fallback floor 0.0001, and
publishing a raw value above the upper bound 100000 stores exactly 100000. -/
theorem c3_publish_clamp (d : String) (m : Metric) (ts : JSNum)
    (accs : List (String × Accessory)) (acc : Accessory)
    (hm : m ∈ solisMetrics)
    (hl : alookup (publishUUID d m.idTag) accs = some acc)
    (hsvc : (getServiceBySubtype acc lightSensorType m.idTag).isSome = true) :
    (∃ acc0, alookup (publishUUID d m.idTag)
        (updateLightSensor d m (.finite 0) ts accs) = some acc0 ∧
      ∃ v, acc0.luxValue = some v ∧ 0 < v ∧ v ≤ 1/10000) ∧
    ∀ q : ℚ, 100000 < q →
      ∃ acc1, alookup (publishUUID d m.idTag)
          (updateLightSensor d m (.finite q) ts accs) = some acc1 ∧
        acc1.luxValue = some 100000 := by
  constructor
  · obtain ⟨acc0, ha, hv⟩ := updateLightSensor_store d m (.finite 0) ts accs acc hl hsvc
    have hval : safeValue (.finite 0) = 1/10000 := by
      rw [safeValue, show updateNumeric (.finite 0) = 0 from rfl,
        max_eq_left (by norm_num), min_eq_left (by norm_num)]
    refine ⟨acc0, ha, 1/10000, ?_, by norm_num, le_refl _⟩
    rw [hv, hval]
  · intro q hq
    obtain ⟨acc1, ha, hv⟩ := updateLightSensor_store d m (.finite q) ts accs acc hl hsvc
    have hval : safeValue (.finite q) = 100000 := by
      rw [safeValue, show updateNumeric (.finite q) = q from rfl,
        max_eq_right (by linarith), min_eq_right (by linarith)]
    refine ⟨acc1, ha, ?_⟩
    rw [hv, hval]

/-- Witness for C3: publishing 0 to the pvPower accessory stores 0.0001 and
publishing 100001 stores 100000. -/
theorem c3_witness :
    (∃ acc0, alookup (publishUUID "dev" pvMetric.idTag)
        (updateLightSensor "dev" pvMetric (.finite 0) .nan
          [(publishUUID "dev" pvMetric.idTag, samplePvAcc)]) = some acc0 ∧
      ∃ v, acc0.luxValue = some v ∧ 0 < v ∧ v ≤ 1/10000) ∧
    (∃ acc1, alookup (publishUUID "dev" pvMetric.idTag)
        (updateLightSensor "dev" pvMetric (.finite 100001) .nan
          [(publishUUID "dev" pvMetric.idTag, samplePvAcc)]) = some acc1 ∧
      acc1.luxValue = some 100000) := by
  have h := c3_publish_clamp "dev" pvMetric .nan
    [(publishUUID "dev" pvMetric.idTag, samplePvAcc)] samplePvAcc
    (by decide) (by decide) (by decide)
  exact ⟨h.1, h.2 100001 (by norm_num)⟩

/-- Claim C4 as written is false on the code: the batteryPercent metric goes
through the same [0.0001, 100000] clamp as every other metric, so publishing
the raw value 150 stores 150, not the [0,100]-clamped value 100. -/
theorem c4_counterexample :
    (∃ acc1, alookup (publishUUID "dev" batteryMetric.idTag)
        (updateLightSensor "dev" batteryMetric (.finite 150) .nan
          [(publishUUID "dev" batteryMetric.idTag, sampleBatteryAcc)]) = some acc1 ∧
      acc1.luxValue = some 150 ∧ acc1.luxValue ≠ some (specPercentClamp 150)) ∧
    specPercentClamp 150 = 100 := by
  have hclamp : specPercentClamp 150 = 100 := by
    rw [specPercentClamp, max_eq_right (by norm_num), min_eq_right (by norm_num)]
  refine ⟨?_, hclamp⟩
  obtain ⟨acc1, ha, hv⟩ := updateLightSensor_store "dev" batteryMetric (.finite 150) .nan
    [(publishUUID "dev" batteryMetric.idTag, sampleBatteryAcc)] sampleBatteryAcc
    (by decide) (by decide)
  have hval : safeValue (.finite 150) = 150 := by
    rw [safeValue, show updateNumeric (.finite 150) = 150 from rfl,
      max_eq_right (by norm_num), min_eq_left (by norm_num)]
  refine ⟨acc1, ha, by rw [hv, hval], ?_⟩
  rw [hv, hval, hclamp]
  intro h
  injection h with h2
  norm_num at h2

/-- Claim C4 (amended): for every published value of the percentage metric
batteryPercent, the stored value equals the raw value clamped into
[0.0001, 100000] — the same clamp as every other metric, not [0, 100]. -/
theorem c4_percent_same_clamp (d : String) (accs : List (String × Accessory))
    (acc : Accessory) (q : ℚ) (ts : JSNum)
    (hl : alookup (publishUUID d batteryMetric.idTag) accs = some acc)
    (hsvc : (getServiceBySubtype acc lightSensorType batteryMetric.idTag).isSome = true) :
    ∃ acc1, alookup (publishUUID d batteryMetric.idTag)
        (updateLightSensor d batteryMetric (.finite q) ts accs) = some acc1 ∧
      acc1.luxValue = some (min (max (1/10000) q) 100000) := by
  obtain ⟨acc1, ha, hv⟩ :=
    updateLightSensor_store d batteryMetric (.finite q) ts accs acc hl hsvc
  exact ⟨acc1, ha, by rw [hv]; rfl⟩

/-- Witness for C4 (amended): publishing 50 to the batteryPercent accessory
stores the [0.0001, 100000]-clamped value. -/
theorem c4_witness :
    ∃ acc1, alookup (publishUUID "dev" batteryMetric.idTag)
        (updateLightSensor "dev" batteryMetric (.finite 50) .nan
          [(publishUUID "dev" batteryMetric.idTag, sampleBatteryAcc)]) = some acc1 ∧
      acc1.luxValue = some (min (max (1/10000) 50) 100000) :=
  c4_percent_same_clamp "dev" [(publishUUID "dev" batteryMetric.idTag, sampleBatteryAcc)]
    sampleBatteryAcc 50 .nan (by decide) (by decide)

/-- Claim C5 as written is false on the code in its converse direction: the
validation also rejects a response whose code differs from the string '0',
so a response with success true, nonempty records but code '1' is rejected. -/
theorem c5_counterexample :
    (SolisResponse.mk true "1" (some [scenarioARecord])).success = true ∧
    (SolisResponse.mk true "1" (some [scenarioARecord])).records = some [scenarioARecord] ∧
    [scenarioARecord] ≠ ([] : List SolisRecord) ∧
    rejectResponse (SolisResponse.mk true "1" (some [scenarioARecord])) = true :=
  ⟨rfl, rfl, List.cons_ne_nil _ _, by decide⟩

/-- Claim C5 (amended): a cycle with success false, or with records absent or
empty, is rejected and leaves every accessory unchanged; conversely a
response passing the success indicator, the code == '0' check, and the
non-empty-records validation is not rejected. -/
theorem c5_reject_cycle (d : String) (now : ℚ) (resp : SolisResponse)
    (accs : List (String × Accessory)) :
    (resp.success = false ∨ resp.records = none ∨ resp.records = some [] →
      rejectResponse resp = true ∧ pollCycle d now resp accs = accs) ∧
    (resp.success = true → resp.code = "0" →
      (∃ r rs, resp.records = some (r :: rs)) → rejectResponse resp = false) := by
  constructor
  · intro h
    have hr : rejectResponse resp = true := by
      rcases h with h | h | h <;> simp [rejectResponse, h]
    refine ⟨hr, ?_⟩
    unfold pollCycle
    rw [if_pos hr]
  · rintro h1 h2 ⟨r, rs, h3⟩
    simp [rejectResponse, h1, h2, h3]

/-- Witness for C5: a success-false response leaves the empty accessory map
unchanged, and the Scenario A response is not rejected. -/
theorem c5_witness :
    (rejectResponse (SolisResponse.mk false "0" (some [scenarioARecord])) = true ∧
      pollCycle "dev" 0 (SolisResponse.mk false "0" (some [scenarioARecord])) [] = []) ∧
    rejectResponse scenarioAResponse = false :=
  ⟨(c5_reject_cycle "dev" 0 (SolisResponse.mk false "0" (some [scenarioARecord])) []).1
      (Or.inl rfl),
    (c5_reject_cycle "dev" 0 scenarioAResponse []).2 rfl rfl ⟨scenarioARecord, [], rfl⟩⟩

/-- Claim C7: running accessory reconciliation twice in succession over the
same registry and the same restored accessory set yields the same final
accessory set as running it once; the second run creates no accessory and
retires no accessory. -/
theorem c7_reconcile_idempotent (d : String) (accs : List (String × Accessory)) :
    initialiseAccessories d (initialiseAccessories d accs).accessories =
      ⟨(initialiseAccessories d accs).accessories, [], []⟩ := by
  have hgood := init_good d accs
  have hvalid := init_keys_valid d accs
  generalize hs1 : (initialiseAccessories d accs).accessories = s1
  rw [hs1] at hgood hvalid
  have hnoop : ensureAll d solisMetrics s1 = (s1, []) :=
    ensureAll_noop d solisMetrics s1 hgood
  have h1 : (initialiseAccessories d s1).accessories = s1 := by
    rw [init_accessories_eq, hnoop]
    exact List.filter_eq_self.2 (fun kv hkv => hvalid kv hkv)
  have h2 : (initialiseAccessories d s1).created = [] := by
    rw [init_created_eq, hnoop]
  have h3 : (initialiseAccessories d s1).removed = [] := by
    rw [init_removed_eq, hnoop]
    show (List.map Prod.fst s1).filter (fun k => !(validUUIDs d).contains k) = []
    refine List.filter_eq_nil_iff.2 ?_
    intro k hk
    obtain ⟨kv, hkv, rfl⟩ := List.mem_map.1 hk
    intro hcontr
    rw [hvalid kv hkv] at hcontr
    exact absurd hcontr (by decide)
  rcases hres : initialiseAccessories d s1 with ⟨a, c, r⟩
  rw [hres] at h1 h2 h3
  rw [show (InitResult.mk a c r).accessories = a from rfl] at h1
  rw [show (InitResult.mk a c r).created = c from rfl] at h2
  rw [show (InitResult.mk a c r).removed = r from rfl] at h3
  rw [h1, h2, h3]

/-- Claim C8: the accessory identifier for a registry metric is a pure
function of the device identifier and metric identifier: the publish-time
lookup computes the same identifier as reconciliation, and after any
reconciliation run (whatever the restored set) the metric's accessory is
found under that identifier. -/
theorem c8_identifier_stable (d : String) (m : Metric) (hm : m ∈ solisMetrics) :
    publishUUID d m.idTag = reconcileUUID d m.idTag ∧
    ∀ accs : List (String × Accessory),
      (alookup (publishUUID d m.idTag)
        (initialiseAccessories d accs).accessories).isSome = true := by
  refine ⟨rfl, fun accs => ?_⟩
  obtain ⟨acc, ha, _⟩ := init_good d accs m hm
  rw [show publishUUID d m.idTag = reconcileUUID d m.idTag from rfl, ha]
  rfl

/-- Witness for C8: the pvPower identifier agrees between the publish path
and two reconciliation runs from different restored sets. -/
theorem c8_witness :
    publishUUID "dev" pvMetric.idTag = reconcileUUID "dev" pvMetric.idTag ∧
    (alookup (publishUUID "dev" pvMetric.idTag)
      (initialiseAccessories "dev" []).accessories).isSome = true ∧
    (alookup (publishUUID "dev" pvMetric.idTag)
      (initialiseAccessories "dev"
        [(reconcileUUID "dev" "pvPower", samplePvAcc)]).accessories).isSome = true :=
  ⟨(c8_identifier_stable "dev" pvMetric (by decide)).1,
    (c8_identifier_stable "dev" pvMetric (by decide)).2 [],
    (c8_identifier_stable "dev" pvMetric (by decide)).2
      [(reconcileUUID "dev" "pvPower", samplePvAcc)]⟩

/-- Claim C9 as written is false on the code in its second conjunct: a
restored accessory whose identifier derives from a different device
identifier is not among the identifiers computed for this device, so the
removal loop unregisters it. -/
theorem c9_counterexample :
    "device-B" ≠ "device-A" ∧
    reconcileUUID "device-B" "pvPower" ∈
      (initialiseAccessories "device-A"
        [(reconcileUUID "device-B" "pvPower", samplePvAcc)]).removed := by
  constructor
  · decide
  · decide

/-- Claim C9 (amended): exactly those host-restored accessories whose
identifier is not among the identifiers freshly computed from the registry
for this device are unregistered and absent from the live map — including
accessories whose identifier derives from a different device identifier,
should any appear in the restored set. -/
theorem c9_retirement (d : String) (accs : List (String × Accessory)) (k : String) :
    (k ∈ (initialiseAccessories d accs).removed ↔
      k ∈ accs.map Prod.fst ∧ k ∉ validUUIDs d) ∧
    (k ∉ validUUIDs d → alookup k (initialiseAccessories d accs).accessories = none) := by
  constructor
  · rw [init_removed_eq, List.mem_filter, ensureAll_keys]
    constructor
    · rintro ⟨hmem | ⟨m, hm, rfl⟩, hnc⟩
      · refine ⟨hmem, ?_⟩
        intro hv
        rw [contains_iff.2 hv] at hnc
        simp at hnc
      · exfalso
        have hv : reconcileUUID d m.idTag ∈ validUUIDs d := List.mem_map.2 ⟨m, hm, rfl⟩
        rw [contains_iff.2 hv] at hnc
        simp at hnc
    · rintro ⟨hmem, hnv⟩
      refine ⟨Or.inl hmem, ?_⟩
      rw [contains_false_iff.2 hnv]
      rfl
  · intro hk
    rw [init_accessories_eq]
    exact alookup_filter_drop _ (contains_false_iff.2 hk) _

/-- Witness for C9 (amended): a restored accessory under a foreign
identifier is retired and absent from the live map. -/
theorem c9_witness :
    "solis-other-pvPower" ∈
      (initialiseAccessories "dev"
        [("solis-other-pvPower", samplePvAcc)]).removed ∧
    alookup "solis-other-pvPower"
      (initialiseAccessories "dev"
        [("solis-other-pvPower", samplePvAcc)]).accessories = none := by
  have h := c9_retirement "dev" [("solis-other-pvPower", samplePvAcc)] "solis-other-pvPower"
  exact ⟨h.1.2 ⟨by decide, by decide⟩, h.2 (by decide)⟩

/-- Claim C10: a history entry is appended exactly when the entry time is
strictly newer than the recorded last logged time (and the last time is then
set to the entry time), so the per-metric sequence of logged entry times is
strictly increasing and a repeated poll timestamp is never logged twice. -/
theorem c10_history_strictly_increasing (m : Metric) (hs : Bool) :
    (∀ (st : LogState) (n : ℚ) (ts : JSNum),
      ((m.graph && hs) = true →
        jsLt (jsOrZero (alookup m.idTag st.logging)) (jsRoundMillis ts) = true →
          fakegatoStep m hs n ts st =
            ⟨aset m.idTag (jsRoundMillis ts) st.logging,
              st.history ++ [(jsRoundMillis ts, n)]⟩) ∧
      (jsLt (jsOrZero (alookup m.idTag st.logging)) (jsRoundMillis ts) = false →
        fakegatoStep m hs n ts st = st)) ∧
    ∀ polls : List (ℚ × JSNum),
      List.Pairwise (fun a b => jsLt a b = true)
        ((polls.foldl (fun s p => fakegatoStep m hs p.1 p.2 s) ⟨[], []⟩).history.map
          Prod.fst) := by
  constructor
  · intro st n ts
    constructor
    · intro hg hcmp
      unfold fakegatoStep
      rw [if_pos hg, if_pos hcmp]
    · intro hcmp
      unfold fakegatoStep
      by_cases hg : (m.graph && hs) = true
      · rw [if_pos hg, if_neg (by rw [hcmp]; exact Bool.false_ne_true)]
      · rw [if_neg hg]
  · intro polls
    refine (fakegatoRun_inv m hs polls ⟨[], []⟩ ⟨List.Pairwise.nil, ?_⟩).1
    intro t ht
    cases ht

/-- Witness for C10: from an empty history, an entry with a newer time is
appended and the last time recorded; an older or equal time is skipped; the
resulting history times are strictly increasing. -/
theorem c10_witness :
    fakegatoStep pvMetric true 5 .posInf ⟨[], []⟩ =
      ⟨aset pvMetric.idTag (jsRoundMillis .posInf) [], [] ++ [(jsRoundMillis .posInf, 5)]⟩ ∧
    fakegatoStep pvMetric true 5 .negInf ⟨[], []⟩ = ⟨[], []⟩ ∧
    List.Pairwise (fun a b => jsLt a b = true)
      (([((5 : ℚ), JSNum.posInf)].foldl
        (fun s p => fakegatoStep pvMetric true p.1 p.2 s) ⟨[], []⟩).history.map Prod.fst) :=
  ⟨((c10_history_strictly_increasing pvMetric true).1 ⟨[], []⟩ 5 .posInf).1
      (by decide) (by decide),
    ((c10_history_strictly_increasing pvMetric true).1 ⟨[], []⟩ 5 .negInf).2 (by decide),
    (c10_history_strictly_increasing pvMetric true).2 [(5, .posInf)]⟩

end SolisCloud
